import Mathlib

/-!
Shallow embedding of the alert decision engine of the
`go-xpx-check-fork-util` repository (files `alertmanager.go`,
`forkchecker.go`, `config.go`, `notifier.go` and the endpoint helpers),
together with theorems settling the specification claims.

Modelling conventions:
* Go `time.Time` values are `Int` nanoseconds since the Go zero time
  (the zero `time.Time` is `0`); the current instant `time.Now()` is an
  explicit parameter `now`.
* `time.Since`/`Time.Sub` saturate at the `time.Duration` bounds, exactly
  as documented for Go's `Time.Sub`.
* Go `int`/`time.Duration` arithmetic that can overflow is wrapped with
  an explicit two's-complement reduction `int64wrap`.
* Go byte strings are modelled as `List Char` (the repository only feeds
  ASCII endpoints to these helpers, where Go's byte indexing and Lean's
  character lists agree).
* Go maps are modelled as association lists together with lookup /
  upsert / delete operations; iteration order of a map is the order of
  the association list.
* The Telegram transport is external: the outcome of `bot.Send` is an
  explicit boolean parameter `sendOk`, and the message handed to the
  transport is returned alongside the new state.
-/

/-! ### Machine-integer and time helpers -/

/-- Two's-complement wrap of mathematical-integer arithmetic into the
Go `int64` range. -/
def int64wrap (x : Int) : Int := (x + 2 ^ 63) % 2 ^ 64 - 2 ^ 63

/-- Largest Go `time.Duration` (`1<<63 - 1` nanoseconds). -/
def maxDuration : Int := 2 ^ 63 - 1

/-- Smallest Go `time.Duration`. -/
def minDuration : Int := -(2 ^ 63)

/-- Go `time.Since(t)` at instant `now`: the difference saturated at the
`time.Duration` bounds, as documented for `Time.Sub`. -/
def timeSince (now t : Int) : Int := max minDuration (min (now - t) maxDuration)

/-- Nanoseconds in one `time.Minute`. -/
def nsPerMinute : Int := 60000000000

/-! ### Endpoint helpers (`abbreviateIfDNSName` and the pieces of
`net.SplitHostPort` / `net.ParseIP` it relies on) -/

/-- Index of the last `':'` in a byte string (Go's `last(hostPort, ':')`
inside `net.SplitHostPort`); `none` when there is no colon. -/
def lastColonIdx : List Char → Option Nat
  | [] => none
  | c :: rest =>
    match lastColonIdx rest with
    | some i => some (i + 1)
    | none => if c = ':' then some 0 else none

/-- Go `net.SplitHostPort`: `none` models a non-nil error.  The Go code
distinguishes several error messages; the caller in this repository only
tests for error vs success, so all errors collapse to `none`. -/
def goSplitHostPort (s : List Char) : Option (List Char × List Char) :=
  match lastColonIdx s with
  | none => none
  | some i =>
    if s.head? = some '[' then
      match s.findIdx? (· = ']') with
      | none => none
      | some endB =>
        if endB + 1 = s.length then none
        else if endB + 1 = i then
          if (s.drop 1).contains '[' then none
          else if (s.drop (endB + 1)).contains ']' then none
          else some ((s.take endB).drop 1, s.drop (i + 1))
        else none
    else
      let host := s.take i
      if host.contains ':' then none
      else if s.contains '[' then none
      else if s.contains ']' then none
      else some (host, s.drop (i + 1))

/-- Value of a hexadecimal digit, as accepted by `netip`'s IPv6 parser. -/
def hexVal : Char → Option Nat
  | c =>
    if '0' ≤ c ∧ c ≤ '9' then some (c.toNat - '0'.toNat)
    else if 'a' ≤ c ∧ c ≤ 'f' then some (c.toNat - 'a'.toNat + 10)
    else if 'A' ≤ c ∧ c ≤ 'F' then some (c.toNat - 'A'.toNat + 10)
    else none

/-- The field loop of `netip.parseIPv4Fields`, keeping only validity.
State: current field value `val`, digits seen in the current field
`digLen`, completed fields `pos`. -/
def v4Loop : List Char → Nat → Nat → Nat → Bool
  | [], _, _, pos => pos == 3
  | c :: rest, val, digLen, pos =>
    if c.isDigit then
      if digLen == 1 && val == 0 then false
      else
        let val' := val * 10 + (c.toNat - '0'.toNat)
        if val' > 255 then false
        else if digLen + 1 > 3 then false
        else v4Loop rest val' (digLen + 1) pos
    else if c = '.' then
      if digLen == 0 then false
      else if rest.isEmpty then false
      else if pos == 3 then false
      else v4Loop rest 0 0 (pos + 1)
    else false

/-- `netip.parseIPv4` validity. -/
def v4Valid (s : List Char) : Bool := v4Loop s 0 0 0

/-- One hexadecimal group of `netip.parseIPv6`: consumes leading hex
digits, returning `(digits consumed, accumulator, rest)`, or `none` when
the group is over-long (the `off > 3` / `acc > 0xFFFF` checks). -/
def v6Group : List Char → Nat → Nat → Option (Nat × Nat × List Char)
  | [], off, acc => some (off, acc, [])
  | c :: rest, off, acc =>
    match hexVal c with
    | none => some (off, acc, c :: rest)
    | some v =>
      if off > 3 then none
      else
        let acc' := acc * 16 + v
        if acc' > 65535 then none
        else v6Group rest (off + 1) acc'

/-- The main loop of `netip.parseIPv6` (validity only; the parsed bytes
never influence acceptance).  Returns the loop-exit state
`(i, remaining input, ellipsis seen)`, or `none` on a parse error. -/
def v6Loop (s : List Char) (i : Nat) (ell : Bool) : Option (Nat × List Char × Bool) :=
  if i ≥ 16 then some (i, s, ell)
  else
    match v6Group s 0 0 with
    | none => none
    | some (off, _, rest) =>
      if off = 0 then none
      else if rest.head? = some '.' then
        if ¬ell ∧ i ≠ 12 then none
        else if i + 4 > 16 then none
        else if v4Valid s then some (i + 4, [], ell) else none
      else
        match rest with
        | [] => some (i + 2, [], ell)
        | ':' :: s2 =>
          match s2 with
          | [] => none
          | ':' :: s3 =>
            if ell then none
            else if s3.isEmpty then some (i + 2, [], true)
            else v6Loop s3 (i + 2) true
          | _ => v6Loop s2 (i + 2) ell
        | _ => none
termination_by 16 - i
decreasing_by all_goals omega

/-- Acceptance after the `netip.parseIPv6` loop: the input must be fully
consumed, a short address needs an ellipsis, and a full address must not
have one. -/
def v6Finish : Option (Nat × List Char × Bool) → Bool
  | none => false
  | some (i, s, ell) => s.isEmpty && (if i < 16 then ell else !ell)

/-- `netip.parseIPv6` validity as seen through `net.ParseIP`.  A `'%'`
zone makes `net.ParseIP` return `nil` either way (an empty zone is a
parse error, and a non-empty zone is rejected by `net.parseIP`), so it
is checked up front. -/
def v6Valid (s : List Char) : Bool :=
  if s.contains '%' then false
  else
    match s with
    | ':' :: ':' :: rest =>
      if rest.isEmpty then true else v6Finish (v6Loop rest 0 true)
    | _ => v6Finish (v6Loop s 0 false)

/-- Whether Go's `net.ParseIP` returns a non-nil `IP`: the first special
character decides between the IPv4 and IPv6 grammars exactly as in
`netip.ParseAddr`. -/
def goParseIP (s : List Char) : Bool :=
  match s.find? (fun c => c = '.' ∨ c = ':' ∨ c = '%') with
  | some '.' => v4Valid s
  | some ':' => v6Valid s
  | _ => false

/-- Go `strings.Split(s, ".")`; the result is never empty. -/
def splitOnDot : List Char → List (List Char)
  | [] => [[]]
  | c :: rest =>
    let r := splitOnDot rest
    if c = '.' then [] :: r
    else
      match r with
      | p :: ps => (c :: p) :: ps
      | [] => [[c]]

/-- `abbreviateIfDNSName` from the repository's helper file, on character
lists. -/
def abbrevChars (address : List Char) : List Char :=
  let host :=
    match goSplitHostPort address with
    | some hp => hp.1
    | none => address
  if goParseIP host then host
  else
    match splitOnDot host with
    | p :: _ => p
    | [] => address

/-- `abbreviateIfDNSName` on `String`s. -/
def abbreviateIfDNSName (s : String) : String := ⟨abbrevChars s.data⟩

/-- `insertSpaceIfExceedsLength` from the repository's helper file. -/
def insertSpaceIfExceedsLength (input : String) (maxLength : Nat) : String :=
  if input.length > maxLength
  then ⟨input.data.take maxLength ++ ' ' :: input.data.drop maxLength⟩
  else input

/-! ### Data model (`config.go`, `alertmanager.go`, `forkchecker.go`) -/

/-- `health.NodeInfo` as used by this repository: a parsed identity key
(rendered by `.String()` to the hex form used as map key), the endpoint,
and an optional friendly name. -/
structure NodeInfo where
  identityKey : String
  endpoint : String
  friendlyName : String
deriving DecidableEq

/-- `AlertConfig` from `config.go`.  The interval/threshold fields are Go
`int`s (minutes for the three durations). -/
structure AlertConfig where
  offlineAlertRepeatInterval : Int
  offlineConsecutiveBlocksThreshold : Int
  syncAlertRepeatInterval : Int
  stuckDurationThreshold : Int
  outOfSyncBlocksThreshold : Int
  outOfSyncCriticalNodesThreshold : Int
deriving DecidableEq

/-- `getOfflineAlertRepeatInterval`: minutes to a `time.Duration`. -/
def AlertConfig.getOfflineAlertRepeatInterval (a : AlertConfig) : Int :=
  int64wrap (a.offlineAlertRepeatInterval * nsPerMinute)

/-- `getSyncAlertRepeatInterval`: minutes to a `time.Duration`. -/
def AlertConfig.getSyncAlertRepeatInterval (a : AlertConfig) : Int :=
  int64wrap (a.syncAlertRepeatInterval * nsPerMinute)

/-- `getStuckDurationThreshold`: minutes to a `time.Duration`. -/
def AlertConfig.getStuckDurationThreshold (a : AlertConfig) : Int :=
  int64wrap (a.stuckDurationThreshold * nsPerMinute)

/-- `NodeStatus` from `alertmanager.go`. -/
structure NodeStatus where
  consecutiveOfflineCount : Int
  lastOfflineAlertTime : Int
deriving DecidableEq

/-- `AlertType` from `alertmanager.go`. -/
inductive AlertType where
  | offline
  | sync
  | hash
deriving DecidableEq

/-- The `lastAlertTimes map[AlertType]time.Time`: a missing key reads as
the zero `time.Time`, so the map is represented by its three lookups. -/
structure LastAlertTimes where
  offline : Int
  sync : Int
  hash : Int
deriving DecidableEq

/-- Lookup in `lastAlertTimes`. -/
def LastAlertTimes.get (t : LastAlertTimes) : AlertType → Int
  | .offline => t.offline
  | .sync => t.sync
  | .hash => t.hash

/-- Store into `lastAlertTimes`. -/
def LastAlertTimes.set (t : LastAlertTimes) : AlertType → Int → LastAlertTimes
  | .offline, v => { t with offline := v }
  | .sync, v => { t with sync := v }
  | .hash, v => { t with hash := v }

/-- The notifier; only `enabled` influences the decision engine (the bot
handle and chat id feed the external transport). -/
structure Notifier where
  enabled : Bool
deriving DecidableEq

/-- Association-list lookup, modelling Go map indexing. -/
def lookupKV {κ β : Type} [DecidableEq κ] (k : κ) : List (κ × β) → Option β
  | [] => none
  | (k', v) :: rest => if k' = k then some v else lookupKV k rest

/-- Association-list upsert, modelling Go map assignment. -/
def insertKV {κ β : Type} [DecidableEq κ] (k : κ) (v : β) : List (κ × β) → List (κ × β)
  | [] => [(k, v)]
  | (k', v') :: rest => if k' = k then (k, v) :: rest else (k', v') :: insertKV k v rest

/-- Association-list removal, modelling Go `delete`. -/
def eraseKV {κ β : Type} [DecidableEq κ] (k : κ) : List (κ × β) → List (κ × β)
  | [] => []
  | (k', v') :: rest => if k' = k then eraseKV k rest else (k', v') :: eraseKV k rest

/-- `AlertManager` from `alertmanager.go`.  `offlineNodeStats` is keyed
by the identity-key string; `nodeInfos` is the configured node list. -/
structure AlertManager where
  config : AlertConfig
  lastAlertTimes : LastAlertTimes
  lastStuckHeight : Nat
  lastStuckTime : Int
  offlineNodeStats : List (String × NodeStatus)
  nodeInfos : List NodeInfo
  notifier : Notifier
deriving DecidableEq

/-- The `Alert` interface: one constructor per alert kind, carrying the
payload of the corresponding struct.  `SyncAlert`'s maps are keyed by
the full `health.NodeInfo` value; `HashAlert.Hashes` and
`OfflineAlert.NotConnected` are keyed by endpoint and identity key
respectively (hashes are their hex renderings). -/
inductive Alert where
  | sync (height : Nat) (notReached reached : List (NodeInfo × Nat))
  | hash (height : Nat) (hashes : List (String × String))
  | offline (notConnected : List (String × NodeInfo))

/-- `getType` of the three alert kinds. -/
def Alert.getType : Alert → AlertType
  | .sync _ _ _ => .sync
  | .hash _ _ => .hash
  | .offline _ => .offline

/-! ### Message builders (`createMessage` of the three alert kinds) -/

/-- `strings.TrimSpace`. -/
def trimSpace (s : String) : String :=
  ⟨(s.data.dropWhile Char.isWhitespace).reverse.dropWhile Char.isWhitespace |>.reverse⟩

/-- Left-justified padding to a minimum width (`fmt` `%-Ns`). -/
def padRightTo (w : Nat) (s : String) : String :=
  ⟨s.data ++ List.replicate (w - s.length) ' '⟩

/-- Right-justified padding to a minimum width (`fmt` `%Ns`). -/
def padLeftTo (w : Nat) (s : String) : String :=
  ⟨List.replicate (w - s.length) ' ' ++ s.data⟩

/-- Sorting a string list, modelling `sort.Strings` (and `sort.Slice`
over single-column rows compared by that column). -/
def sortStrings (l : List String) : List String :=
  l.mergeSort (fun a b => decide (a ≤ b))

/-- Sorting the two-column out-of-sync rows by their first column,
modelling the `sort.Slice` call in `writeOutOfSync`.  Go's `sort.Slice`
leaves the order of rows with equal first columns unspecified; this
model picks a stable order, and the determinism theorem below only
speaks about inputs whose first columns are pairwise distinct, where
every comparison-correct sort agrees. -/
def sortRows (l : List (String × String)) : List (String × String) :=
  l.mergeSort (fun a b => decide (a.1 ≤ b.1))

/-- The display label shared by `OfflineAlert.createMessage` and
`SyncAlert.writeSynced`: friendly name plus bracketed abbreviated host
when the friendly name differs from it. -/
def displayLabel (n : NodeInfo) : String :=
  let host := abbreviateIfDNSName n.endpoint
  if n.friendlyName ≠ "" ∧ trimSpace n.friendlyName ≠ trimSpace host
  then n.friendlyName ++ "(" ++ host ++ ")"
  else host

/-- `OfflineAlert.createMessage`: iterates the values of `NotConnected`,
labels them, sorts, and pads each line to width 37. -/
def offlineCreateMessage (notConnected : List (String × NodeInfo)) : String :=
  "<b>⚠️ Warning - Offline nodes </b>" ++ "\n\nFailed connection  (" ++
    toString notConnected.length ++ "):" ++ "<pre>" ++
    String.join ((sortStrings (notConnected.map (fun kv => displayLabel kv.2))).map
      (fun s => padRightTo 37 s ++ "\n")) ++ "</pre>"

/-- Insertion into `hashesGroup` (`hashesGroup[hash] = append(..., endpoint)`),
keeping first-insertion order of the groups. -/
def groupInsert (h e : String) : List (String × List String) → List (String × List String)
  | [] => [(h, [e])]
  | (h', es) :: rest =>
    if h' = h then (h', es ++ [e]) :: rest else (h', es) :: groupInsert h e rest

/-- The `hashesGroup` map built by `HashAlert.createMessage`, iterated in
the order the model's map iteration presents the groups. -/
def hashesGroup (hashes : List (String × String)) : List (String × List String) :=
  hashes.foldl (fun g kv => groupInsert kv.2 kv.1 g) []

/-- `HashAlert.createMessage`: one section per hash group, endpoints of a
group sorted; the groups themselves appear in map-iteration order. -/
def hashCreateMessage (height : Nat) (hashes : List (String × String)) : String :=
  "<b>❗Fork Alert </b>\n\n" ++ "Inconsistent block hash at:  <b>" ++
    toString height ++ "</b>\n" ++ "<pre>" ++
    String.join ((hashesGroup hashes).map (fun g =>
      g.1 ++ ":\n\n" ++
        String.join ((sortStrings g.2).map (fun e => e ++ "\n")) ++ "\n\n")) ++
    "</pre>"

/-- The column width chosen by `writeOutOfSync`. -/
def widthOf (n : Nat) : Nat := if n ≤ 5 then 23 else 28

/-- The label of an out-of-sync row (the friendly-name variant passes
through `insertSpaceIfExceedsLength`). -/
def outRowLabel (w : Nat) (n : NodeInfo) : String :=
  let host := abbreviateIfDNSName n.endpoint
  if n.friendlyName ≠ "" ∧ trimSpace n.friendlyName ≠ trimSpace host
  then insertSpaceIfExceedsLength (n.friendlyName ++ "(" ++ host ++ ")") w
  else host

/-- The unsorted rows of `writeOutOfSync`: label and `%8s`-formatted
height, one per entry of `NotReached`. -/
def outOfSyncRows (notReached : List (NodeInfo × Nat)) : List (String × String) :=
  notReached.map (fun kv =>
    (outRowLabel (widthOf notReached.length) kv.1, padLeftTo 8 (toString kv.2)))

/-- `SyncAlert.writeSynced`, parametric in the external `tablewriter`
rendering `rs` of the sorted single-column rows. -/
def writeSynced (rs : List String → String) (height : Nat)
    (reached : List (NodeInfo × Nat)) : String :=
  "\n\nSynced at <b>" ++ toString height ++ "</b> (" ++ toString reached.length ++ "):" ++
    (if reached.length = 0 then ""
     else "<pre>" ++ rs (sortStrings (reached.map (fun kv => displayLabel kv.1))) ++ "</pre>")

/-- `SyncAlert.writeOutOfSync`, parametric in the external `tablewriter`
rendering `ro` of the column width and the sorted rows. -/
def writeOutOfSync (ro : Nat → List (String × String) → String)
    (notReached : List (NodeInfo × Nat)) : String :=
  "\n\nOut-of-sync (" ++ toString notReached.length ++ "):" ++
    (if notReached.length = 0 then ""
     else "<pre>" ++ ro (widthOf notReached.length) (sortRows (outOfSyncRows notReached)) ++
       "</pre>")

/-- `SyncAlert.createMessage`, parametric in the two table renderings. -/
def syncCreateMessageWith (rs : List String → String)
    (ro : Nat → List (String × String) → String) (height : Nat)
    (notReached reached : List (NodeInfo × Nat)) : String :=
  (if reached.length = 0 then "<b>❗ Stuck Alert </b>" else "<b>⚠️ Warning </b>") ++
    writeSynced rs height reached ++ writeOutOfSync ro notReached

/-- Concrete stand-in for the external `tablewriter` library's rendering
of the synced rows (the library is deterministic in the row list; no
claim depends on the exact table text). -/
def tableRenderSynced (rows : List String) : String :=
  String.join (rows.map (fun r => r ++ "\n"))

/-- Concrete stand-in for the external `tablewriter` rendering of the
out-of-sync rows. -/
def tableRenderOutOfSync (_w : Nat) (rows : List (String × String)) : String :=
  String.join (rows.map (fun r => r.1 ++ " " ++ r.2 ++ "\n"))

/-- `createMessage` dispatch of the `Alert` interface. -/
def Alert.createMessage : Alert → String
  | .sync h nr r => syncCreateMessageWith tableRenderSynced tableRenderOutOfSync h nr r
  | .hash h hs => hashCreateMessage h hs
  | .offline nc => offlineCreateMessage nc

/-! ### The decision engine (`alertmanager.go`) -/

/-- `updateNodeStatusLastOfflineAlertTime`: stamp `now` on the status of
every key of the alert's `NotConnected` map that has an entry. -/
def stampOffline (now : Int) (keys : List String)
    (stats : List (String × NodeStatus)) : List (String × NodeStatus) :=
  keys.foldl (fun st k =>
    match lookupKV k st with
    | some s => insertKV k { s with lastOfflineAlertTime := now } st
    | none => st) stats

/-- `AlertManager.sendToTelegram`: skip when the notifier is disabled,
build the message, hand it to the transport (`sendOk` is the outcome of
`Notifier.sendToTelegram`); only on success record the alert time and,
for offline alerts, stamp the per-node alert times.  The second
component is the message handed to the transport, `none` when disabled. -/
def sendToTelegram (now : Int) (sendOk : Bool) (am : AlertManager) (alert : Alert) :
    AlertManager × Option String :=
  if !am.notifier.enabled then (am, none)
  else
    let msg := alert.createMessage
    if !sendOk then (am, some msg)
    else
      let am1 := { am with lastAlertTimes := am.lastAlertTimes.set alert.getType now }
      match alert with
      | .offline nc =>
        ({ am1 with offlineNodeStats := stampOffline now (nc.map Prod.fst) am1.offlineNodeStats },
          some msg)
      | _ => (am1, some msg)

/-- The loop body of `shouldSendOfflineAlert` for one configured node. -/
def offlineStep (now : Int) (cfg : AlertConfig) (failed : List (String × NodeInfo))
    (acc : List (String × NodeStatus) × Bool) (info : NodeInfo) :
    List (String × NodeStatus) × Bool :=
  let key := info.identityKey
  if (lookupKV key failed).isSome then
    let status :=
      match lookupKV key acc.1 with
      | none => { consecutiveOfflineCount := 1, lastOfflineAlertTime := 0 : NodeStatus }
      | some s => { s with consecutiveOfflineCount := s.consecutiveOfflineCount + 1 }
    let stats := insertKV key status acc.1
    if status.consecutiveOfflineCount > cfg.offlineConsecutiveBlocksThreshold ∧
        timeSince now status.lastOfflineAlertTime > cfg.getOfflineAlertRepeatInterval
    then (stats, true)
    else (stats, acc.2)
  else (eraseKV key acc.1, acc.2)

/-- `shouldSendOfflineAlert`: walk the configured nodes, counting
consecutive offline cycles and erasing the status of reconnected nodes;
returns the decision together with the mutated manager. -/
def shouldSendOfflineAlert (now : Int) (am : AlertManager)
    (failed : List (String × NodeInfo)) : Bool × AlertManager :=
  let r := am.nodeInfos.foldl (offlineStep now am.config failed) (am.offlineNodeStats, false)
  (r.2, { am with offlineNodeStats := r.1 })

/-- `handleOfflineAlert`. -/
def handleOfflineAlert (now : Int) (sendOk : Bool) (am : AlertManager)
    (failed : List (String × NodeInfo)) : AlertManager × Option String :=
  let r := shouldSendOfflineAlert now am failed
  if r.1 then sendToTelegram now sendOk r.2 (.offline failed) else (r.2, none)

/-- `isStuckDurationReached`: same checkpoint compares the elapsed time
against the threshold; a new checkpoint is recorded and is not yet
alarming. -/
def isStuckDurationReached (now : Int) (am : AlertManager) (checkpoint : Nat) :
    Bool × AlertManager :=
  if am.lastStuckHeight = checkpoint then
    (decide (timeSince now am.lastStuckTime > am.config.getStuckDurationThreshold), am)
  else
    (false, { am with lastStuckHeight := checkpoint, lastStuckTime := now })

/-- Reinterpretation of a `uint64` value as Go `int` (64-bit). -/
def toInt64 (u : Int) : Int := if u < 2 ^ 63 then u else u - 2 ^ 64

/-- Whether one configured node is critically lagging: present in
`notReached` with `int(checkpoint-height)` at least the block
threshold (`checkpoint-height` is `uint64` subtraction). -/
def laggingB (cfg : AlertConfig) (checkpoint : Nat) (notReached : List (NodeInfo × Nat))
    (info : NodeInfo) : Bool :=
  match lookupKV info notReached with
  | some h => decide (cfg.outOfSyncBlocksThreshold ≤ toInt64 (((checkpoint : Int) - h) % 2 ^ 64))
  | none => false

/-- The counting loop of `shouldSendSyncAlert`, returning `true` as soon
as the counter reaches the critical-nodes threshold. -/
def outOfSyncLoop (cfg : AlertConfig) (checkpoint : Nat)
    (notReached : List (NodeInfo × Nat)) : List NodeInfo → Int → Bool
  | [], _ => false
  | info :: rest, c =>
    if laggingB cfg checkpoint notReached info then
      if cfg.outOfSyncCriticalNodesThreshold ≤ c + 1 then true
      else outOfSyncLoop cfg checkpoint notReached rest (c + 1)
    else outOfSyncLoop cfg checkpoint notReached rest c

/-- `shouldSendSyncAlert`. -/
def shouldSendSyncAlert (now : Int) (am : AlertManager) (checkpoint : Nat)
    (notReached reached : List (NodeInfo × Nat)) : Bool × AlertManager :=
  if notReached.length = 0 then (false, am)
  else if reached.length = 0 then isStuckDurationReached now am checkpoint
  else (outOfSyncLoop am.config checkpoint notReached am.nodeInfos 0, am)

/-- `handleSyncAlert`: the policy decision additionally gated by the
sync-alert repeat interval. -/
def handleSyncAlert (now : Int) (sendOk : Bool) (am : AlertManager) (checkpoint : Nat)
    (notReached reached : List (NodeInfo × Nat)) : AlertManager × Option String :=
  let r := shouldSendSyncAlert now am checkpoint notReached reached
  if r.1 ∧ timeSince now (r.2.lastAlertTimes.get .sync) > am.config.getSyncAlertRepeatInterval
  then sendToTelegram now sendOk r.2 (.sync checkpoint notReached reached)
  else (r.2, none)

/-- `handleHashAlert`: unconditional dispatch. -/
def handleHashAlert (now : Int) (sendOk : Bool) (am : AlertManager) (checkpoint : Nat)
    (hashes : List (String × String)) : AlertManager × Option String :=
  sendToTelegram now sendOk am (.hash checkpoint hashes)

/-- The status written by `shouldSendOfflineAlert` for a node observed
offline: initialized to one consecutive cycle, or incremented. -/
def updStatus : Option NodeStatus → NodeStatus
  | none => { consecutiveOfflineCount := 1, lastOfflineAlertTime := 0 }
  | some s => { s with consecutiveOfflineCount := s.consecutiveOfflineCount + 1 }

/-- Whether one configured node makes `shouldSendOfflineAlert` fire,
expressed against a fixed snapshot of `offlineNodeStats`: the node is in
`failed`, its updated consecutive count strictly exceeds the threshold,
and the time since its last offline alert strictly exceeds the repeat
interval. -/
def offlineQualifies (now : Int) (cfg : AlertConfig) (failed : List (String × NodeInfo))
    (stats : List (String × NodeStatus)) (info : NodeInfo) : Bool :=
  (lookupKV info.identityKey failed).isSome &&
    ((updStatus (lookupKV info.identityKey stats)).consecutiveOfflineCount >
        cfg.offlineConsecutiveBlocksThreshold) &&
    (timeSince now (updStatus (lookupKV info.identityKey stats)).lastOfflineAlertTime >
        cfg.getOfflineAlertRepeatInterval)

/-- The `lastOfflineAlertTime` recorded for a key, reading absence as the
zero time. -/
def origTime (stats : List (String × NodeStatus)) (k : String) : Int :=
  match lookupKV k stats with
  | some s => s.lastOfflineAlertTime
  | none => 0

/-- The consecutive-offline count recorded for a key, reading absence as
zero. -/
def countOf : Option NodeStatus → Int
  | some s => s.consecutiveOfflineCount
  | none => 0

/-- Sample configured node used by the concrete witnesses. -/
def nodeA : NodeInfo :=
  { identityKey := "KA", endpoint := "a.example.com:7900", friendlyName := "NodeA" }

/-- Second sample configured node. -/
def nodeB : NodeInfo :=
  { identityKey := "KB", endpoint := "b.example.com:7900", friendlyName := "NodeB" }

/-- Unconfigured sample node. -/
def nodeC : NodeInfo :=
  { identityKey := "KC", endpoint := "c.example.com:7900", friendlyName := "NodeC" }

/-- Sample alert manager: threshold of 5 consecutive offline cycles,
repeat intervals of 120 minutes, stuck threshold 10 minutes, out-of-sync
thresholds 5 blocks / 5 critical nodes (the values of the repository's
`sample.config.json`). -/
def amSample : AlertManager :=
  { config :=
      { offlineAlertRepeatInterval := 120
        offlineConsecutiveBlocksThreshold := 5
        syncAlertRepeatInterval := 120
        stuckDurationThreshold := 10
        outOfSyncBlocksThreshold := 5
        outOfSyncCriticalNodesThreshold := 5 }
    lastAlertTimes := { offline := 0, sync := 0, hash := 0 }
    lastStuckHeight := 0
    lastStuckTime := 0
    offlineNodeStats := []
    nodeInfos := [nodeA, nodeB]
    notifier := { enabled := true } }

/-- The sample manager with the notifier disabled (`notify: false`). -/
def amDisabled : AlertManager := { amSample with notifier := { enabled := false } }

/-! ### Lemmas about the map operations -/

theorem lookupKV_insertKV_self {κ β : Type} [DecidableEq κ] (k : κ) (v : β)
    (l : List (κ × β)) : lookupKV k (insertKV k v l) = some v := by
  induction l with
  | nil => simp [lookupKV, insertKV]
  | cons p rest ih =>
    obtain ⟨k', v'⟩ := p
    by_cases h : k' = k
    · simp [insertKV, h, lookupKV]
    · simp [insertKV, h, lookupKV, ih]

theorem lookupKV_insertKV_ne {κ β : Type} [DecidableEq κ] {q k : κ} (v : β)
    (l : List (κ × β)) (h : q ≠ k) : lookupKV q (insertKV k v l) = lookupKV q l := by
  induction l with
  | nil => simp [lookupKV, insertKV, Ne.symm h]
  | cons p rest ih =>
    obtain ⟨k', v'⟩ := p
    by_cases hk : k' = k
    · subst hk
      simp [insertKV, lookupKV, Ne.symm h]
    · simp only [insertKV, if_neg hk, lookupKV]
      by_cases hq : k' = q
      · simp [hq]
      · simp [hq, ih]

theorem lookupKV_eraseKV_self {κ β : Type} [DecidableEq κ] (k : κ)
    (l : List (κ × β)) : lookupKV k (eraseKV k l) = none := by
  induction l with
  | nil => simp [lookupKV, eraseKV]
  | cons p rest ih =>
    obtain ⟨k', v'⟩ := p
    by_cases h : k' = k
    · simp [eraseKV, h, ih]
    · simp [eraseKV, h, lookupKV, ih]

theorem lookupKV_eraseKV_ne {κ β : Type} [DecidableEq κ] {q k : κ}
    (l : List (κ × β)) (h : q ≠ k) : lookupKV q (eraseKV k l) = lookupKV q l := by
  induction l with
  | nil => simp [lookupKV, eraseKV]
  | cons p rest ih =>
    obtain ⟨k', v'⟩ := p
    by_cases hk : k' = k
    · subst hk
      simp [eraseKV, lookupKV, Ne.symm h, ih]
    · simp only [eraseKV, if_neg hk, lookupKV]
      by_cases hq : k' = q
      · simp [hq]
      · simp [hq, ih]

/-! ### Lemmas about the offline counting loop -/

theorem offlineStep_fst (now : Int) (cfg : AlertConfig) (failed : List (String × NodeInfo))
    (acc : List (String × NodeStatus) × Bool) (info : NodeInfo) :
    (offlineStep now cfg failed acc info).1 =
      if (lookupKV info.identityKey failed).isSome
      then insertKV info.identityKey (updStatus (lookupKV info.identityKey acc.1)) acc.1
      else eraseKV info.identityKey acc.1 := by
  cases hf : (lookupKV info.identityKey failed).isSome
  · simp [offlineStep, hf]
  · cases hl : lookupKV info.identityKey acc.1 <;>
      · simp only [offlineStep, hf, hl, updStatus, if_true]
        split <;> rfl

theorem offlineStep_snd (now : Int) (cfg : AlertConfig) (failed : List (String × NodeInfo))
    (acc : List (String × NodeStatus) × Bool) (info : NodeInfo) :
    (offlineStep now cfg failed acc info).2 =
      (acc.2 || offlineQualifies now cfg failed acc.1 info) := by
  cases hf : (lookupKV info.identityKey failed).isSome
  · simp [offlineStep, hf, offlineQualifies]
  · cases hl : lookupKV info.identityKey acc.1 <;>
      · simp only [offlineStep, hf, hl, updStatus, offlineQualifies, if_true, Bool.true_and]
        split <;> rename_i hc
        · simp [decide_eq_true hc.1, decide_eq_true hc.2]
        · rcases Decidable.not_and_iff_or_not.mp hc with h | h <;>
            simp [decide_eq_false h]

theorem offlineQualifies_congr (now : Int) (cfg : AlertConfig)
    (failed : List (String × NodeInfo)) {stats stats0 : List (String × NodeStatus)}
    (info : NodeInfo)
    (h : lookupKV info.identityKey stats = lookupKV info.identityKey stats0) :
    offlineQualifies now cfg failed stats info = offlineQualifies now cfg failed stats0 info := by
  simp [offlineQualifies, h]

theorem offline_fold_untouched (now : Int) (cfg : AlertConfig)
    (failed : List (String × NodeInfo)) :
    ∀ (l : List NodeInfo) (acc : List (String × NodeStatus) × Bool) (k : String),
      (∀ info ∈ l, info.identityKey ≠ k) →
      lookupKV k (l.foldl (offlineStep now cfg failed) acc).1 = lookupKV k acc.1 := by
  intro l
  induction l with
  | nil => intro acc k _; rfl
  | cons info rest ih =>
    intro acc k hk
    rw [List.foldl_cons, ih _ k (fun i hi => hk i (List.mem_cons_of_mem _ hi)),
      offlineStep_fst]
    have hne : k ≠ info.identityKey := (hk info (List.mem_cons_self _ _)).symm
    cases hf : (lookupKV info.identityKey failed).isSome
    · simp [lookupKV_eraseKV_ne _ hne]
    · simp [lookupKV_insertKV_ne _ _ hne]

theorem offline_fold_agree_step (now : Int) (cfg : AlertConfig)
    (failed : List (String × NodeInfo)) (acc : List (String × NodeStatus) × Bool)
    (stats0 : List (String × NodeStatus)) (j : NodeInfo) (rest : List NodeInfo)
    (hag : ∀ i ∈ j :: rest, lookupKV i.identityKey acc.1 = lookupKV i.identityKey stats0)
    (hnd : ((j :: rest).map (fun n => n.identityKey)).Nodup) :
    ∀ i ∈ rest, lookupKV i.identityKey (offlineStep now cfg failed acc j).1 =
      lookupKV i.identityKey stats0 := by
  have hnd' : (∀ x ∈ rest, ¬x.identityKey = j.identityKey) ∧
      (rest.map (fun n => n.identityKey)).Nodup := by simpa using hnd
  intro i hi
  have hne : i.identityKey ≠ j.identityKey := hnd'.1 i hi
  rw [offlineStep_fst]
  cases hf : (lookupKV j.identityKey failed).isSome
  · simpa [lookupKV_eraseKV_ne _ hne] using hag i (List.mem_cons_of_mem _ hi)
  · simpa [lookupKV_insertKV_ne _ _ hne] using hag i (List.mem_cons_of_mem _ hi)

theorem offline_fold_snd (now : Int) (cfg : AlertConfig)
    (failed : List (String × NodeInfo)) :
    ∀ (l : List NodeInfo) (acc : List (String × NodeStatus) × Bool)
      (stats0 : List (String × NodeStatus)),
      (∀ i ∈ l, lookupKV i.identityKey acc.1 = lookupKV i.identityKey stats0) →
      (l.map (fun n => n.identityKey)).Nodup →
      (l.foldl (offlineStep now cfg failed) acc).2 =
        (acc.2 || l.any (offlineQualifies now cfg failed stats0)) := by
  intro l
  induction l with
  | nil => intro acc stats0 _ _; simp
  | cons j rest ih =>
    intro acc stats0 hag hnd
    have hnd' : (∀ x ∈ rest, ¬x.identityKey = j.identityKey) ∧
        (rest.map (fun n => n.identityKey)).Nodup := by simpa using hnd
    rw [List.foldl_cons,
      ih _ stats0 (offline_fold_agree_step now cfg failed acc stats0 j rest hag hnd) hnd'.2,
      offlineStep_snd,
      offlineQualifies_congr now cfg failed j (hag j (List.mem_cons_self _ _))]
    simp [Bool.or_assoc]

theorem offline_fold_fst_mem (now : Int) (cfg : AlertConfig)
    (failed : List (String × NodeInfo)) :
    ∀ (l : List NodeInfo) (acc : List (String × NodeStatus) × Bool)
      (stats0 : List (String × NodeStatus)) (info : NodeInfo),
      info ∈ l →
      (∀ i ∈ l, lookupKV i.identityKey acc.1 = lookupKV i.identityKey stats0) →
      (l.map (fun n => n.identityKey)).Nodup →
      lookupKV info.identityKey (l.foldl (offlineStep now cfg failed) acc).1 =
        (if (lookupKV info.identityKey failed).isSome
         then some (updStatus (lookupKV info.identityKey stats0))
         else none) := by
  intro l
  induction l with
  | nil => intro _ _ _ hmem _ _; cases hmem
  | cons j rest ih =>
    intro acc stats0 info hmem hag hnd
    have hnd' : (∀ x ∈ rest, ¬x.identityKey = j.identityKey) ∧
        (rest.map (fun n => n.identityKey)).Nodup := by simpa using hnd
    rw [List.foldl_cons]
    by_cases hkey : info.identityKey = j.identityKey
    · have hnotin : ∀ i ∈ rest, i.identityKey ≠ info.identityKey := by
        intro i hi he
        exact hnd'.1 i hi (he.trans hkey)
      rw [offline_fold_untouched now cfg failed rest _ _ hnotin, offlineStep_fst, hkey]
      cases hf : (lookupKV j.identityKey failed).isSome
      · simp [hf, lookupKV_eraseKV_self]
      · simp [hf, lookupKV_insertKV_self, hag j (List.mem_cons_self _ _)]
    · have hmem' : info ∈ rest := by
        rcases List.mem_cons.mp hmem with h | h
        · exact absurd (congrArg (fun n => n.identityKey) h) hkey
        · exact h
      exact ih _ stats0 info hmem'
        (offline_fold_agree_step now cfg failed acc stats0 j rest hag hnd) hnd'.2

theorem offline_fold_times (now : Int) (cfg : AlertConfig)
    (failed : List (String × NodeInfo)) :
    ∀ (l : List NodeInfo) (acc : List (String × NodeStatus) × Bool)
      (stats0 : List (String × NodeStatus)),
      (∀ k s, lookupKV k acc.1 = some s → s.lastOfflineAlertTime = origTime stats0 k) →
      (∀ k, (lookupKV k failed).isSome → lookupKV k acc.1 = none → lookupKV k stats0 = none) →
      ∀ k s, lookupKV k (l.foldl (offlineStep now cfg failed) acc).1 = some s →
        s.lastOfflineAlertTime = origTime stats0 k := by
  intro l
  induction l with
  | nil => intro acc stats0 h1 _ k s hs; exact h1 k s hs
  | cons j rest ih =>
    intro acc stats0 h1 h2
    rw [List.foldl_cons]
    have hstep := offlineStep_fst now cfg failed acc j
    apply ih (offlineStep now cfg failed acc j) stats0
    · intro k s hs
      rw [hstep] at hs
      cases hf : (lookupKV j.identityKey failed).isSome with
      | false =>
        rw [hf] at hs
        simp only [Bool.false_eq_true, if_false] at hs
        have hk : k ≠ j.identityKey := by
          intro he
          rw [he, lookupKV_eraseKV_self] at hs
          cases hs
        rw [lookupKV_eraseKV_ne _ hk] at hs
        exact h1 k s hs
      | true =>
        rw [hf] at hs
        simp only [if_true] at hs
        by_cases hk : k = j.identityKey
        · rw [hk, lookupKV_insertKV_self] at hs
          cases hl : lookupKV j.identityKey acc.1 with
          | some s0 =>
            rw [hl] at hs
            cases hs
            rw [hk]
            simpa [updStatus] using h1 j.identityKey s0 hl
          | none =>
            rw [hl] at hs
            cases hs
            have hn : lookupKV j.identityKey stats0 = none := h2 j.identityKey hf hl
            rw [hk]
            simp [updStatus, origTime, hn]
        · rw [lookupKV_insertKV_ne _ _ hk] at hs
          exact h1 k s hs
    · intro k hkf hnone
      rw [hstep] at hnone
      cases hf : (lookupKV j.identityKey failed).isSome with
      | false =>
        rw [hf] at hnone
        simp only [Bool.false_eq_true, if_false] at hnone
        by_cases hk : k = j.identityKey
        · rw [hk] at hkf
          rw [hkf] at hf
          cases hf
        · rw [lookupKV_eraseKV_ne _ hk] at hnone
          exact h2 k hkf hnone
      | true =>
        rw [hf] at hnone
        simp only [if_true] at hnone
        by_cases hk : k = j.identityKey
        · rw [hk, lookupKV_insertKV_self] at hnone
          cases hnone
        · rw [lookupKV_insertKV_ne _ _ hk] at hnone
          exact h2 k hkf hnone

/-! ### Lemmas about the offline-alert-time stamping -/

theorem stampOffline_counts (now : Int) :
    ∀ (keys : List String) (st : List (String × NodeStatus)) (k : String),
      (lookupKV k (stampOffline now keys st)).map (fun s => s.consecutiveOfflineCount) =
        (lookupKV k st).map (fun s => s.consecutiveOfflineCount) := by
  intro keys
  induction keys with
  | nil => intro st k; rfl
  | cons q rest ih =>
    intro st k
    have hstep : stampOffline now (q :: rest) st = stampOffline now rest
        (match lookupKV q st with
         | some s => insertKV q { s with lastOfflineAlertTime := now } st
         | none => st) := rfl
    rw [hstep]
    cases hq : lookupKV q st with
    | none =>
      simp only [hq]
      exact ih st k
    | some s =>
      simp only [hq]
      rw [ih _ k]
      by_cases hk : k = q
      · rw [hk, lookupKV_insertKV_self, hq]
        rfl
      · rw [lookupKV_insertKV_ne _ _ hk]

/-! ### Lemmas about the out-of-sync counting loop -/

theorem outOfSyncLoop_iff (cfg : AlertConfig) (checkpoint : Nat)
    (notReached : List (NodeInfo × Nat)) :
    ∀ (l : List NodeInfo) (c : Int),
      outOfSyncLoop cfg checkpoint notReached l c = true ↔
        (1 ≤ l.countP (laggingB cfg checkpoint notReached) ∧
          cfg.outOfSyncCriticalNodesThreshold ≤
            c + l.countP (laggingB cfg checkpoint notReached)) := by
  intro l
  induction l with
  | nil => intro c; simp [outOfSyncLoop]
  | cons j rest ih =>
    intro c
    by_cases hj : laggingB cfg checkpoint notReached j = true
    · rw [List.countP_cons_of_pos _ _ hj]
      by_cases hk : cfg.outOfSyncCriticalNodesThreshold ≤ c + 1
      · simp only [outOfSyncLoop, hj, hk, if_true]
        have hn : (0 : Int) ≤ (rest.countP (laggingB cfg checkpoint notReached) : Int) :=
          Int.ofNat_nonneg _
        constructor
        · intro _
          constructor
          · omega
          · push_cast
            omega
        · intro _
          trivial
      · simp only [outOfSyncLoop, hj, hk, if_true, if_false]
        rw [ih (c + 1)]
        constructor
        · intro h'
          constructor
          · omega
          · push_cast at h' ⊢
            omega
        · intro h'
          have h2 := h'.2
          push_cast at h2
          constructor
          · omega
          · omega
    · rw [List.countP_cons_of_neg _ _ (by simpa using hj)]
      simp only [outOfSyncLoop, hj, if_false]
      exact ih c

/-! ### Frame lemmas for the sync path -/

theorem shouldSendSyncAlert_frame (now : Int) (am : AlertManager) (checkpoint : Nat)
    (notReached reached : List (NodeInfo × Nat)) :
    (shouldSendSyncAlert now am checkpoint notReached reached).2.lastAlertTimes =
        am.lastAlertTimes ∧
      (shouldSendSyncAlert now am checkpoint notReached reached).2.offlineNodeStats =
        am.offlineNodeStats ∧
      (shouldSendSyncAlert now am checkpoint notReached reached).2.notifier = am.notifier ∧
      (shouldSendSyncAlert now am checkpoint notReached reached).2.config = am.config ∧
      (shouldSendSyncAlert now am checkpoint notReached reached).2.nodeInfos = am.nodeInfos := by
  by_cases h1 : notReached.length = 0
  · simp [shouldSendSyncAlert, h1]
  · by_cases h2 : reached.length = 0
    · by_cases h3 : am.lastStuckHeight = checkpoint <;>
        simp [shouldSendSyncAlert, isStuckDurationReached, h1, h2, h3]
    · simp [shouldSendSyncAlert, h1, h2]

theorem shouldSendOfflineAlert_frame (now : Int) (am : AlertManager)
    (failed : List (String × NodeInfo)) :
    (shouldSendOfflineAlert now am failed).2.lastAlertTimes = am.lastAlertTimes ∧
      (shouldSendOfflineAlert now am failed).2.notifier = am.notifier ∧
      (shouldSendOfflineAlert now am failed).2.config = am.config ∧
      (shouldSendOfflineAlert now am failed).2.nodeInfos = am.nodeInfos := by
  exact ⟨rfl, rfl, rfl, rfl⟩

/-! ### Determinism of the sorting helpers -/

theorem sortStrings_perm_invariant {l1 l2 : List String} (hp : l1.Perm l2) :
    sortStrings l1 = sortStrings l2 := by
  have htrans : ∀ (a b c : String), (fun a b => decide (a ≤ b)) a b →
      (fun a b => decide (a ≤ b)) b c → (fun a b => decide (a ≤ b)) a c := by
    intro a b c hab hbc
    simp only [decide_eq_true_eq] at *
    exact le_trans hab hbc
  have htotal : ∀ (a b : String),
      ((fun a b => decide (a ≤ b)) a b || (fun a b => decide (a ≤ b)) b a) = true := by
    intro a b
    simpa using le_total a b
  have hs1 : (sortStrings l1).Sorted (· ≤ ·) :=
    (List.sorted_mergeSort htrans htotal l1).imp (fun h => by simpa using h)
  have hs2 : (sortStrings l2).Sorted (· ≤ ·) :=
    (List.sorted_mergeSort htrans htotal l2).imp (fun h => by simpa using h)
  exact List.eq_of_perm_of_sorted
    (((List.mergeSort_perm l1 _).trans hp).trans (List.mergeSort_perm l2 _).symm) hs1 hs2

theorem sortRows_perm_invariant {l1 l2 : List (String × String)} (hp : l1.Perm l2)
    (hnd : (l1.map Prod.fst).Nodup) : sortRows l1 = sortRows l2 := by
  have htrans : ∀ (a b c : String × String), (fun a b => decide (a.1 ≤ b.1)) a b →
      (fun a b => decide (a.1 ≤ b.1)) b c → (fun a b => decide (a.1 ≤ b.1)) a c := by
    intro a b c hab hbc
    simp only [decide_eq_true_eq] at *
    exact le_trans hab hbc
  have htotal : ∀ (a b : String × String),
      ((fun a b => decide (a.1 ≤ b.1)) a b || (fun a b => decide (a.1 ≤ b.1)) b a) = true := by
    intro a b
    simpa using le_total a.1 b.1
  have hne1 : l1.Pairwise (fun a b : String × String => a.1 ≠ b.1) :=
    List.pairwise_map.mp hnd
  have hlt : ∀ (l : List (String × String)), l.Perm l1 →
      (sortRows l).Pairwise (fun a b : String × String => a.1 < b.1) := by
    intro l hl
    have hle : (sortRows l).Pairwise (fun a b : String × String => a.1 ≤ b.1) :=
      (List.sorted_mergeSort htrans htotal l).imp (fun h => by simpa using h)
    have hne : (sortRows l).Pairwise (fun a b : String × String => a.1 ≠ b.1) :=
      (((List.mergeSort_perm l _).trans hl).pairwise_iff (fun {a b} h => Ne.symm h)).mpr hne1
    exact (hle.and hne).imp (fun h => lt_of_le_of_ne h.1 h.2)
  letI : IsAntisymm (String × String) (fun a b => a.1 < b.1) :=
    ⟨fun a b h1 h2 => absurd (lt_trans h1 h2) (lt_irrefl _)⟩
  exact List.eq_of_perm_of_sorted
    (((List.mergeSort_perm l1 _).trans hp).trans (List.mergeSort_perm l2 _).symm)
    (hlt l1 (List.Perm.refl l1)) (hlt l2 hp.symm)

/-! ### Helper facts about `sendToTelegram` -/

theorem sendToTelegram_fail_fst (now : Int) (am : AlertManager) (alert : Alert) :
    (sendToTelegram now false am alert).1 = am := by
  cases he : am.notifier.enabled <;> simp [sendToTelegram, he]

theorem sendToTelegram_disabled (now : Int) (sendOk : Bool) (am : AlertManager)
    (alert : Alert) (h : am.notifier.enabled = false) :
    sendToTelegram now sendOk am alert = (am, none) := by
  simp [sendToTelegram, h]

/-- C5: for every call to `handleHashAlert` with the notifier enabled, the
`HashAlert` message is built and dispatched to the sender immediately,
for every state of `lastAlertTimes` — there is no repeat-interval gate on
hash alerts. -/
theorem handleHashAlert_always_dispatches (now : Int) (sendOk : Bool) (am : AlertManager)
    (checkpoint : Nat) (hashes : List (String × String))
    (h : am.notifier.enabled = true) :
    (handleHashAlert now sendOk am checkpoint hashes).2 =
      some (Alert.createMessage (.hash checkpoint hashes)) := by
  cases sendOk <;> simp [handleHashAlert, sendToTelegram, h]

theorem handleHashAlert_always_dispatches_witness :
    (handleHashAlert 5 true amSample 100 [("e1", "h1")]).2 =
      some (Alert.createMessage (.hash 100 [("e1", "h1")])) :=
  handleHashAlert_always_dispatches 5 true amSample 100 [("e1", "h1")] rfl

/-- C6: when the transport fails, no timestamp is updated — the manager
state coming out of `sendToTelegram` is exactly the state that went in —
while the state mutations already applied during policy evaluation (the
offline counters, the stuck tracking) are kept, not rolled back. -/
theorem send_failure_preserves_state (now : Int) (sendOk : Bool) (am : AlertManager)
    (alert : Alert) (failed : List (String × NodeInfo)) (checkpoint : Nat)
    (notReached reached : List (NodeInfo × Nat)) (hashes : List (String × String))
    (h : sendOk = false) :
    sendToTelegram now sendOk am alert =
        (am, if am.notifier.enabled then some alert.createMessage else none) ∧
      (handleOfflineAlert now sendOk am failed).1 = (shouldSendOfflineAlert now am failed).2 ∧
      (handleSyncAlert now sendOk am checkpoint notReached reached).1 =
        (shouldSendSyncAlert now am checkpoint notReached reached).2 ∧
      (handleHashAlert now sendOk am checkpoint hashes).1 = am := by
  subst h
  refine ⟨?_, ?_, ?_, ?_⟩
  · cases he : am.notifier.enabled <;> simp [sendToTelegram, he]
  · by_cases hs : (shouldSendOfflineAlert now am failed).1 = true
    · simp [handleOfflineAlert, hs, sendToTelegram_fail_fst]
    · simp [handleOfflineAlert, hs]
  · by_cases hs : (shouldSendSyncAlert now am checkpoint notReached reached).1 = true ∧
        timeSince now
            ((shouldSendSyncAlert now am checkpoint notReached reached).2.lastAlertTimes.get
              .sync) >
          am.config.getSyncAlertRepeatInterval
    · simp [handleSyncAlert, hs, sendToTelegram_fail_fst]
    · simp [handleSyncAlert, hs]
  · simp [handleHashAlert, sendToTelegram_fail_fst]

theorem send_failure_preserves_state_witness :
    sendToTelegram 7 false amSample (.hash 100 [("e1", "h1")]) =
        (amSample,
          if amSample.notifier.enabled
          then some (Alert.createMessage (.hash 100 [("e1", "h1")])) else none) ∧
      (handleOfflineAlert 7 false amSample [("KA", nodeA)]).1 =
        (shouldSendOfflineAlert 7 amSample [("KA", nodeA)]).2 ∧
      (handleSyncAlert 7 false amSample 100 [(nodeA, 90)] []).1 =
        (shouldSendSyncAlert 7 amSample 100 [(nodeA, 90)] []).2 ∧
      (handleHashAlert 7 false amSample 100 [("e1", "h1")]).1 = amSample :=
  send_failure_preserves_state 7 false amSample (.hash 100 [("e1", "h1")])
    [("KA", nodeA)] 100 [(nodeA, 90)] [] [("e1", "h1")] rfl

/-- C7: a call to `handleSyncAlert` with an empty `notReached` map is a
complete no-op: no alert is sent and the manager state — every field —
is unchanged. -/
theorem handleSyncAlert_noop_when_synced (now : Int) (sendOk : Bool) (am : AlertManager)
    (checkpoint : Nat) (notReached reached : List (NodeInfo × Nat))
    (h : notReached = []) :
    handleSyncAlert now sendOk am checkpoint notReached reached = (am, none) := by
  subst h
  simp [handleSyncAlert, shouldSendSyncAlert]

theorem handleSyncAlert_noop_when_synced_witness :
    handleSyncAlert 7 true amSample 100 [] [(nodeA, 100)] = (amSample, none) :=
  handleSyncAlert_noop_when_synced 7 true amSample 100 [] [(nodeA, 100)] rfl

/-- C10: while the notifier is disabled, `sendToTelegram` returns before
building or sending anything, so all three `handle*` entry points
dispatch nothing and leave `lastAlertTimes` untouched, and no node's
`lastOfflineAlertTime` is ever stamped (an entry's alert time is always
the one already recorded, or the zero time for a fresh entry) — while
the offline counting and the stuck tracking still mutate the state. -/
theorem disabled_notifier_frame (now : Int) (sendOk : Bool) (am : AlertManager)
    (failed : List (String × NodeInfo)) (checkpoint : Nat)
    (notReached reached : List (NodeInfo × Nat)) (hashes : List (String × String))
    (h : am.notifier.enabled = false) :
    handleHashAlert now sendOk am checkpoint hashes = (am, none) ∧
      handleSyncAlert now sendOk am checkpoint notReached reached =
        ((shouldSendSyncAlert now am checkpoint notReached reached).2, none) ∧
      (shouldSendSyncAlert now am checkpoint notReached reached).2.lastAlertTimes =
        am.lastAlertTimes ∧
      (shouldSendSyncAlert now am checkpoint notReached reached).2.offlineNodeStats =
        am.offlineNodeStats ∧
      handleOfflineAlert now sendOk am failed =
        ((shouldSendOfflineAlert now am failed).2, none) ∧
      (shouldSendOfflineAlert now am failed).2.lastAlertTimes = am.lastAlertTimes ∧
      (∀ k s,
        lookupKV k (shouldSendOfflineAlert now am failed).2.offlineNodeStats = some s →
          s.lastOfflineAlertTime = origTime am.offlineNodeStats k) := by
  have hsyncframe := shouldSendSyncAlert_frame now am checkpoint notReached reached
  refine ⟨?_, ?_, hsyncframe.1, hsyncframe.2.1, ?_, rfl, ?_⟩
  · exact sendToTelegram_disabled now sendOk am _ h
  · by_cases hs : (shouldSendSyncAlert now am checkpoint notReached reached).1 = true ∧
        timeSince now
            ((shouldSendSyncAlert now am checkpoint notReached reached).2.lastAlertTimes.get
              .sync) >
          am.config.getSyncAlertRepeatInterval
    · rw [handleSyncAlert]
      rw [if_pos hs]
      exact sendToTelegram_disabled now sendOk _ _ (hsyncframe.2.2.1 ▸ h)
    · simp [handleSyncAlert, hs]
  · by_cases hs : (shouldSendOfflineAlert now am failed).1 = true
    · rw [handleOfflineAlert]
      rw [if_pos hs]
      exact sendToTelegram_disabled now sendOk _ _ h
    · simp [handleOfflineAlert, hs]
  · intro k s hs
    refine offline_fold_times now am.config failed am.nodeInfos
      (am.offlineNodeStats, false) am.offlineNodeStats ?_ ?_ k s hs
    · intro k' s' hs'
      simp [origTime, hs']
    · intro k' _ hnone
      exact hnone

theorem disabled_notifier_frame_witness :
    handleHashAlert 7 true amDisabled 100 [("e1", "h1")] = (amDisabled, none) ∧
      handleSyncAlert 7 true amDisabled 100 [(nodeA, 90)] [] =
        ((shouldSendSyncAlert 7 amDisabled 100 [(nodeA, 90)] []).2, none) ∧
      (shouldSendSyncAlert 7 amDisabled 100 [(nodeA, 90)] []).2.lastAlertTimes =
        amDisabled.lastAlertTimes ∧
      (shouldSendSyncAlert 7 amDisabled 100 [(nodeA, 90)] []).2.offlineNodeStats =
        amDisabled.offlineNodeStats ∧
      handleOfflineAlert 7 true amDisabled [("KA", nodeA)] =
        ((shouldSendOfflineAlert 7 amDisabled [("KA", nodeA)]).2, none) ∧
      (shouldSendOfflineAlert 7 amDisabled [("KA", nodeA)]).2.lastAlertTimes =
        amDisabled.lastAlertTimes ∧
      (∀ k s,
        lookupKV k (shouldSendOfflineAlert 7 amDisabled [("KA", nodeA)]).2.offlineNodeStats =
            some s →
          s.lastOfflineAlertTime = origTime amDisabled.offlineNodeStats k) :=
  disabled_notifier_frame 7 true amDisabled [("KA", nodeA)] 100 [(nodeA, 90)] []
    [("e1", "h1")] rfl

theorem handleOfflineAlert_counts (now : Int) (sendOk : Bool) (am : AlertManager)
    (failed : List (String × NodeInfo)) :
    ∀ k, (lookupKV k (handleOfflineAlert now sendOk am failed).1.offlineNodeStats).map
        (fun s => s.consecutiveOfflineCount) =
      (lookupKV k (shouldSendOfflineAlert now am failed).2.offlineNodeStats).map
        (fun s => s.consecutiveOfflineCount) := by
  intro k
  by_cases hs : (shouldSendOfflineAlert now am failed).1 = true
  · rw [handleOfflineAlert, if_pos hs]
    cases he : (shouldSendOfflineAlert now am failed).2.notifier.enabled
    · rw [sendToTelegram_disabled _ _ _ _ he]
    · cases sendOk
      · rw [show (sendToTelegram now false (shouldSendOfflineAlert now am failed).2
            (.offline failed)).1 = (shouldSendOfflineAlert now am failed).2 from
            sendToTelegram_fail_fst _ _ _]
      · simp only [sendToTelegram, he, Bool.not_true, Bool.false_eq_true, if_false,
          Bool.not_false, if_true]
        exact stampOffline_counts now (failed.map Prod.fst) _ k
  · rw [handleOfflineAlert, if_neg hs]

/-- C4: after a call to `handleOfflineAlert`, a configured node that is
not in `failedConnections` has no `offlineNodeStats` entry (eager
cleanup on reconnect), and a configured node that is in
`failedConnections` has its `consecutiveOfflineCount` equal to its
previous count plus one — so the count is initialized to 1 on the first
offline cycle and incremented by exactly 1 on each later consecutive
offline cycle.  Stated for configured node lists without duplicate
identity keys. -/
theorem offline_stats_maintenance (now : Int) (sendOk : Bool) (am : AlertManager)
    (failed : List (String × NodeInfo))
    (hnd : (am.nodeInfos.map (fun n => n.identityKey)).Nodup) :
    ∀ info ∈ am.nodeInfos,
      (lookupKV info.identityKey failed = none →
        lookupKV info.identityKey
          (handleOfflineAlert now sendOk am failed).1.offlineNodeStats = none) ∧
      ((lookupKV info.identityKey failed).isSome →
        (lookupKV info.identityKey
            (handleOfflineAlert now sendOk am failed).1.offlineNodeStats).map
            (fun s => s.consecutiveOfflineCount) =
          some (countOf (lookupKV info.identityKey am.offlineNodeStats) + 1)) := by
  intro info hmem
  have hfold : lookupKV info.identityKey
      (shouldSendOfflineAlert now am failed).2.offlineNodeStats =
      (if (lookupKV info.identityKey failed).isSome
       then some (updStatus (lookupKV info.identityKey am.offlineNodeStats))
       else none) :=
    offline_fold_fst_mem now am.config failed am.nodeInfos (am.offlineNodeStats, false)
      am.offlineNodeStats info hmem (fun _ _ => rfl) hnd
  have hcounts := handleOfflineAlert_counts now sendOk am failed info.identityKey
  constructor
  · intro hnone
    have hn : lookupKV info.identityKey
        (shouldSendOfflineAlert now am failed).2.offlineNodeStats = none := by
      rw [hfold, hnone]
      rfl
    rw [hn] at hcounts
    simp only [Option.map_none'] at hcounts
    exact Option.map_eq_none'.mp hcounts
  · intro hsome
    rw [hfold, if_pos hsome] at hcounts
    rw [hcounts]
    cases hl : lookupKV info.identityKey am.offlineNodeStats <;>
      simp [updStatus, countOf, hl]

theorem offline_stats_maintenance_witness :
    (lookupKV nodeA.identityKey [("KA", nodeA)] = none →
        lookupKV nodeA.identityKey
          (handleOfflineAlert 7 true
            { amSample with offlineNodeStats := [("KA", (⟨2, 0⟩ : NodeStatus))] }
            [("KA", nodeA)]).1.offlineNodeStats = none) ∧
      ((lookupKV nodeA.identityKey [("KA", nodeA)]).isSome →
        (lookupKV nodeA.identityKey
            (handleOfflineAlert 7 true
              { amSample with offlineNodeStats := [("KA", (⟨2, 0⟩ : NodeStatus))] }
              [("KA", nodeA)]).1.offlineNodeStats).map
            (fun s => s.consecutiveOfflineCount) =
          some (countOf (lookupKV nodeA.identityKey
            ({ amSample with
              offlineNodeStats := [("KA", (⟨2, 0⟩ : NodeStatus))] } :
                AlertManager).offlineNodeStats) + 1)) :=
  offline_stats_maintenance 7 true
    { amSample with offlineNodeStats := [("KA", (⟨2, 0⟩ : NodeStatus))] }
    [("KA", nodeA)] (by decide) nodeA (by decide)

/-- C1 (counterexample): a state where the node's updated consecutive
count exceeds the threshold (6 > 5) and the elapsed time since its last
offline alert equals the repeat interval exactly — so "at least the
interval" holds — yet `shouldSendOfflineAlert` does not alert: the code
compares the elapsed time with strict `>`, not `≥`. -/
theorem shouldSendOfflineAlert_atLeast_counterexample :
    (shouldSendOfflineAlert 7200000000005
        { amSample with offlineNodeStats := [("KA", (⟨5, 5⟩ : NodeStatus))] }
        [("KA", nodeA)]).1 = false ∧
      (updStatus (lookupKV "KA"
          [("KA", (⟨5, 5⟩ : NodeStatus))])).consecutiveOfflineCount >
        amSample.config.offlineConsecutiveBlocksThreshold ∧
      timeSince 7200000000005 5 ≥ amSample.config.getOfflineAlertRepeatInterval := by
  decide

/-- C1 (amended): `shouldSendOfflineAlert` decides to alert exactly when
some configured node is in `failedConnections`, its updated
`consecutiveOfflineCount` strictly exceeds
`OfflineConsecutiveBlocksThreshold`, and the time since its
`lastOfflineAlertTime` strictly exceeds `OfflineAlertRepeatInterval`
(strictly — the code uses `>`, not `≥`; a zero/never timestamp satisfies
any interval below the saturation bound).  With threshold 5 the 6th
consecutive offline cycle is the first that can alert.  Stated for
configured node lists without duplicate identity keys. -/
theorem shouldSendOfflineAlert_qualification (now : Int) (am : AlertManager)
    (failed : List (String × NodeInfo))
    (hnd : (am.nodeInfos.map (fun n => n.identityKey)).Nodup) :
    (shouldSendOfflineAlert now am failed).1 = true ↔
      ∃ info ∈ am.nodeInfos,
        offlineQualifies now am.config failed am.offlineNodeStats info = true := by
  have h := offline_fold_snd now am.config failed am.nodeInfos
    (am.offlineNodeStats, false) am.offlineNodeStats (fun _ _ => rfl) hnd
  rw [show (shouldSendOfflineAlert now am failed).1 =
    (am.nodeInfos.foldl (offlineStep now am.config failed)
      (am.offlineNodeStats, false)).2 from rfl]
  rw [h]
  simp [List.any_eq_true]

theorem shouldSendOfflineAlert_qualification_witness :
    (shouldSendOfflineAlert 10000000000000
        { amSample with offlineNodeStats := [("KA", (⟨5, 0⟩ : NodeStatus))] }
        [("KA", nodeA)]).1 = true :=
  (shouldSendOfflineAlert_qualification 10000000000000
    { amSample with offlineNodeStats := [("KA", (⟨5, 0⟩ : NodeStatus))] }
    [("KA", nodeA)] (by decide)).mpr (by decide)

/-- C2 (counterexample): a state where the same checkpoint is observed
stuck again and the elapsed time since `lastStuckTime` equals
`StuckDurationThreshold` exactly — "at least the threshold" holds — yet
the stuck condition does not fire: the code compares with strict `>`,
not `≥`. -/
theorem isStuckDurationReached_atLeast_counterexample :
    (shouldSendSyncAlert 600000000005
        { amSample with lastStuckHeight := 100, lastStuckTime := 5 } 100
        [(nodeC, 90)] []).1 = false ∧
      ({ amSample with lastStuckHeight := 100, lastStuckTime := 5 } :
          AlertManager).lastStuckHeight = 100 ∧
      timeSince 600000000005 5 ≥ amSample.config.getStuckDurationThreshold := by
  decide

/-- C2 (amended): for `handleSyncAlert` with `reached` empty and
`notReached` non-empty: on the first cycle a checkpoint value is
observed stuck (the stored stuck height differs from it), the engine
records `lastStuckHeight = checkpoint` and `lastStuckTime = now` and
does not alert; on subsequent cycles with the same checkpoint value the
stuck condition holds exactly when the elapsed time since
`lastStuckTime` strictly exceeds `StuckDurationThreshold` (strictly —
the code uses `>`, not `≥`). -/
theorem stuck_tracking_spec (now : Int) (sendOk : Bool) (am : AlertManager)
    (checkpoint : Nat) (notReached reached : List (NodeInfo × Nat))
    (h1 : notReached ≠ []) (h2 : reached = []) :
    (am.lastStuckHeight ≠ checkpoint →
      shouldSendSyncAlert now am checkpoint notReached reached =
          (false, { am with lastStuckHeight := checkpoint, lastStuckTime := now }) ∧
        handleSyncAlert now sendOk am checkpoint notReached reached =
          ({ am with lastStuckHeight := checkpoint, lastStuckTime := now }, none)) ∧
      (am.lastStuckHeight = checkpoint →
        shouldSendSyncAlert now am checkpoint notReached reached =
          (decide (timeSince now am.lastStuckTime > am.config.getStuckDurationThreshold),
            am)) := by
  subst h2
  have hlen : ¬(notReached.length = 0) := by
    simpa [List.length_eq_zero] using h1
  constructor
  · intro hne
    have hshould : shouldSendSyncAlert now am checkpoint notReached [] =
        (false, { am with lastStuckHeight := checkpoint, lastStuckTime := now }) := by
      simp [shouldSendSyncAlert, hlen, isStuckDurationReached, hne]
    refine ⟨hshould, ?_⟩
    simp [handleSyncAlert, hshould]
  · intro heq
    simp [shouldSendSyncAlert, hlen, isStuckDurationReached, heq]

theorem stuck_tracking_spec_witness :
    (amSample.lastStuckHeight ≠ 100 →
      shouldSendSyncAlert 7 amSample 100 [(nodeC, 90)] [] =
          (false, { amSample with lastStuckHeight := 100, lastStuckTime := 7 }) ∧
        handleSyncAlert 7 true amSample 100 [(nodeC, 90)] [] =
          ({ amSample with lastStuckHeight := 100, lastStuckTime := 7 }, none)) ∧
      (amSample.lastStuckHeight = 100 →
        shouldSendSyncAlert 7 amSample 100 [(nodeC, 90)] [] =
          (decide (timeSince 7 amSample.lastStuckTime >
            amSample.config.getStuckDurationThreshold), amSample)) :=
  stuck_tracking_spec 7 true amSample 100 [(nodeC, 90)] [] (by decide) rfl

/-- C3 (counterexample): with `OutOfSyncCriticalNodesThreshold = 0`,
`reached` and `notReached` both non-empty and no configured node
critically lagging, the count (zero) does reach the threshold (zero) —
the claimed condition holds — yet no sync alert fires: the loop only
returns `true` after actually counting at least one lagging node. -/
theorem outOfSync_zeroThreshold_counterexample :
    (shouldSendSyncAlert 7
        { amSample with config :=
          { amSample.config with outOfSyncCriticalNodesThreshold := 0 } }
        1000 [(nodeC, 990)] [(nodeA, 1000)]).1 = false ∧
      (({ amSample with config :=
          { amSample.config with outOfSyncCriticalNodesThreshold := 0 } } :
            AlertManager).nodeInfos.countP
          (laggingB { amSample.config with outOfSyncCriticalNodesThreshold := 0 }
            1000 [(nodeC, 990)]) : Int) ≥
        ({ amSample.config with
          outOfSyncCriticalNodesThreshold := 0 } : AlertConfig).outOfSyncCriticalNodesThreshold := by
  decide

/-- C3 (amended): with `reached` and `notReached` both non-empty, the
out-of-sync condition of `shouldSendSyncAlert` holds exactly when at
least one configured-node list entry is critically lagging (present in
`notReached` with height deficit at least `OutOfSyncBlocksThreshold`)
AND the number of such entries reaches
`OutOfSyncCriticalNodesThreshold`; the evaluation leaves the manager
unchanged, and with fewer qualifying nodes than the critical-nodes
threshold no sync alert is sent. -/
theorem shouldSendSyncAlert_outOfSync_iff (now : Int) (sendOk : Bool) (am : AlertManager)
    (checkpoint : Nat) (notReached reached : List (NodeInfo × Nat))
    (h1 : notReached ≠ []) (h2 : reached ≠ []) :
    ((shouldSendSyncAlert now am checkpoint notReached reached).1 = true ↔
        (1 ≤ am.nodeInfos.countP (laggingB am.config checkpoint notReached) ∧
          am.config.outOfSyncCriticalNodesThreshold ≤
            (am.nodeInfos.countP (laggingB am.config checkpoint notReached) : Int))) ∧
      (shouldSendSyncAlert now am checkpoint notReached reached).2 = am ∧
      ((am.nodeInfos.countP (laggingB am.config checkpoint notReached) : Int) <
          am.config.outOfSyncCriticalNodesThreshold →
        handleSyncAlert now sendOk am checkpoint notReached reached = (am, none)) := by
  have hlen1 : ¬(notReached.length = 0) := by
    simpa [List.length_eq_zero] using h1
  have hlen2 : ¬(reached.length = 0) := by
    simpa [List.length_eq_zero] using h2
  have hshould : shouldSendSyncAlert now am checkpoint notReached reached =
      (outOfSyncLoop am.config checkpoint notReached am.nodeInfos 0, am) := by
    simp [shouldSendSyncAlert, hlen1, hlen2]
  have hiff := outOfSyncLoop_iff am.config checkpoint notReached am.nodeInfos 0
  rw [zero_add] at hiff
  refine ⟨by rw [hshould]; exact hiff, by rw [hshould], ?_⟩
  intro hlt
  have hfalse : outOfSyncLoop am.config checkpoint notReached am.nodeInfos 0 = false := by
    rcases Bool.eq_false_or_eq_true (outOfSyncLoop am.config checkpoint notReached
      am.nodeInfos 0) with h | h
    · exact absurd (hiff.mp h).2 (not_le.mpr hlt)
    · exact h
  simp [handleSyncAlert, hshould, hfalse]

theorem shouldSendSyncAlert_outOfSync_iff_witness :
    ((shouldSendSyncAlert 7 amSample 1000 [(nodeA, 990)] [(nodeB, 1000)]).1 = true ↔
        (1 ≤ amSample.nodeInfos.countP (laggingB amSample.config 1000 [(nodeA, 990)]) ∧
          amSample.config.outOfSyncCriticalNodesThreshold ≤
            (amSample.nodeInfos.countP
              (laggingB amSample.config 1000 [(nodeA, 990)]) : Int))) ∧
      (shouldSendSyncAlert 7 amSample 1000 [(nodeA, 990)] [(nodeB, 1000)]).2 = amSample ∧
      ((amSample.nodeInfos.countP (laggingB amSample.config 1000 [(nodeA, 990)]) : Int) <
          amSample.config.outOfSyncCriticalNodesThreshold →
        handleSyncAlert 7 true amSample 1000 [(nodeA, 990)] [(nodeB, 1000)] =
          (amSample, none)) :=
  shouldSendSyncAlert_outOfSync_iff 7 true amSample 1000 [(nodeA, 990)] [(nodeB, 1000)]
    (by decide) (by decide)

/-! ### Lemmas about the endpoint abbreviation -/

theorem contains_eq_false_of_not_mem {c : Char} {l : List Char} (h : c ∉ l) :
    l.contains c = false := by
  simp [List.contains, h]

theorem lastColonIdx_none_of_not_mem {s : List Char} (h : ':' ∉ s) :
    lastColonIdx s = none := by
  induction s with
  | nil => rfl
  | cons a rest ih =>
    have ha : ¬(a = ':') := fun he => h (he ▸ List.mem_cons_self a rest)
    have hr : ':' ∉ rest := fun hm => h (List.mem_cons_of_mem _ hm)
    simp [lastColonIdx, ih hr, ha]

theorem lastColonIdx_append {host port : List Char} (hh : ':' ∉ host) (hp : ':' ∉ port) :
    lastColonIdx (host ++ ':' :: port) = some host.length := by
  induction host with
  | nil => simp [lastColonIdx, lastColonIdx_none_of_not_mem hp]
  | cons a rest ih =>
    have hr : ':' ∉ rest := fun hm => hh (List.mem_cons_of_mem _ hm)
    simp [lastColonIdx, ih hr]

theorem goSplitHostPort_append {host port : List Char}
    (hhc : ':' ∉ host) (hpc : ':' ∉ port) (hhb : '[' ∉ host) (hpb : '[' ∉ port)
    (hhb2 : ']' ∉ host) (hpb2 : ']' ∉ port) :
    goSplitHostPort (host ++ ':' :: port) = some (host, port) := by
  have hidx := lastColonIdx_append hhc hpc
  have hhead : ¬((host ++ ':' :: port).head? = some '[') := by
    cases host with
    | nil => simp
    | cons a rest =>
      intro hcon
      simp only [List.cons_append, List.head?_cons, Option.some.injEq] at hcon
      exact hhb (hcon ▸ List.mem_cons_self a rest)
  have hnb : '[' ∉ host ++ ':' :: port := by
    intro hm
    rcases List.mem_append.mp hm with h | h
    · exact hhb h
    · rcases List.mem_cons.mp h with h | h
      · cases h
      · exact hpb h
  have hnb2 : ']' ∉ host ++ ':' :: port := by
    intro hm
    rcases List.mem_append.mp hm with h | h
    · exact hhb2 h
    · rcases List.mem_cons.mp h with h | h
      · cases h
      · exact hpb2 h
  have htake : (host ++ ':' :: port).take host.length = host := List.take_left host _
  have hdrop : (host ++ ':' :: port).drop (host.length + 1) = port := by
    have : host ++ ':' :: port = (host ++ [':']) ++ port := by simp
    rw [this]
    exact List.drop_left' (by simp)
  rw [goSplitHostPort, hidx]
  simp only [hhead, if_false]
  rw [htake]
  rw [contains_eq_false_of_not_mem hhc, contains_eq_false_of_not_mem hnb,
    contains_eq_false_of_not_mem hnb2]
  simp [hdrop]

theorem goSplitHostPort_none {s : List Char} (h : ':' ∉ s) :
    goSplitHostPort s = none := by
  rw [goSplitHostPort, lastColonIdx_none_of_not_mem h]

theorem splitOnDot_head :
    ∀ s : List Char, ∃ t, splitOnDot s = s.takeWhile (fun c => decide (c ≠ '.')) :: t := by
  intro s
  induction s with
  | nil => exact ⟨[], rfl⟩
  | cons a rest ih =>
    obtain ⟨t, ht⟩ := ih
    by_cases ha : a = '.'
    · exact ⟨splitOnDot rest, by simp [splitOnDot, ha, List.takeWhile_cons]⟩
    · refine ⟨t, ?_⟩
      simp [splitOnDot, ha, ht, List.takeWhile_cons]

/-- C8 (amended): for a well-formed `host:port` endpoint (no colon inside
host or port, no brackets anywhere), `abbreviateIfDNSName` splits off
the port and DISCARDS it: the result equals the abbreviation of the bare
host — the host itself when it is an IP literal, otherwise the first
dot-separated label of the hostname.  The port is not reattached. -/
theorem abbreviateIfDNSName_spec (host port : List Char)
    (hhc : ':' ∉ host) (hpc : ':' ∉ port) (hhb : '[' ∉ host) (hpb : '[' ∉ port)
    (hhb2 : ']' ∉ host) (hpb2 : ']' ∉ port) :
    abbrevChars (host ++ ':' :: port) =
        (if goParseIP host then host else host.takeWhile (fun c => decide (c ≠ '.'))) ∧
      abbrevChars host =
        (if goParseIP host then host else host.takeWhile (fun c => decide (c ≠ '.'))) := by
  obtain ⟨t, ht⟩ := splitOnDot_head host
  constructor
  · rw [abbrevChars, goSplitHostPort_append hhc hpc hhb hpb hhb2 hpb2]
    cases hip : goParseIP host
    · simp [hip, ht]
    · simp [hip]
  · rw [abbrevChars, goSplitHostPort_none hhc]
    cases hip : goParseIP host
    · simp [hip, ht]
    · simp [hip]

theorem abbreviateIfDNSName_spec_witness :
    (abbrevChars ("node1.example.com".data ++ ':' :: "3000".data) =
        (if goParseIP "node1.example.com".data then "node1.example.com".data
         else "node1.example.com".data.takeWhile (fun c => decide (c ≠ '.'))) ∧
      abbrevChars "node1.example.com".data =
        (if goParseIP "node1.example.com".data then "node1.example.com".data
         else "node1.example.com".data.takeWhile (fun c => decide (c ≠ '.')))) :=
  abbreviateIfDNSName_spec "node1.example.com".data "3000".data (by decide) (by decide)
    (by decide) (by decide) (by decide) (by decide)

/-- C8 (counterexample): the port is not reattached — a DNS endpoint
abbreviates to its first label alone, and an IP endpoint to the bare
host, in both cases without the port the claim says is reattached. -/
theorem abbreviate_port_counterexample :
    abbreviateIfDNSName "node1.example.com:3000" = "node1" ∧
      abbreviateIfDNSName "node1.example.com:3000" ≠ "node1:3000" ∧
      abbreviateIfDNSName "10.0.0.1:3000" = "10.0.0.1" ∧
      abbreviateIfDNSName "10.0.0.1:3000" ≠ "10.0.0.1:3000" := by
  decide

/-- C9 (amended): the offline message builder is a function of its input
map viewed as a set of entries — permuting the iteration order leaves
the rendered string unchanged — and so is the sync builder, for every
table rendering, provided the first columns of its out-of-sync rows are
pairwise distinct.  The hash builder is not order-independent: its
per-hash group sections follow the map-iteration order (see the
counterexample). -/
theorem builders_order_independent :
    (∀ l1 l2 : List (String × NodeInfo), l1.Perm l2 →
        offlineCreateMessage l1 = offlineCreateMessage l2) ∧
      (∀ (rs : List String → String) (ro : Nat → List (String × String) → String)
        (height : Nat) (nr1 nr2 r1 r2 : List (NodeInfo × Nat)),
        nr1.Perm nr2 → r1.Perm r2 →
        ((outOfSyncRows nr1).map Prod.fst).Nodup →
        syncCreateMessageWith rs ro height nr1 r1 =
          syncCreateMessageWith rs ro height nr2 r2) := by
  constructor
  · intro l1 l2 hp
    rw [offlineCreateMessage, offlineCreateMessage, hp.length_eq,
      sortStrings_perm_invariant (hp.map _)]
  · intro rs ro height nr1 nr2 r1 r2 hnr hr hnd
    have hrows : (outOfSyncRows nr1).Perm (outOfSyncRows nr2) := by
      rw [outOfSyncRows, outOfSyncRows, ← hnr.length_eq]
      exact hnr.map _
    have hsorted : sortRows (outOfSyncRows nr1) = sortRows (outOfSyncRows nr2) :=
      sortRows_perm_invariant hrows hnd
    rw [syncCreateMessageWith, syncCreateMessageWith, writeSynced, writeSynced,
      writeOutOfSync, writeOutOfSync, hr.length_eq, hnr.length_eq,
      sortStrings_perm_invariant (hr.map _), hsorted]

theorem builders_order_independent_witness :
    offlineCreateMessage [("KA", nodeA), ("KB", nodeB)] =
        offlineCreateMessage [("KB", nodeB), ("KA", nodeA)] ∧
      syncCreateMessageWith tableRenderSynced tableRenderOutOfSync 100
          [(nodeA, 90), (nodeB, 91)] [(nodeC, 100)] =
        syncCreateMessageWith tableRenderSynced tableRenderOutOfSync 100
          [(nodeB, 91), (nodeA, 90)] [(nodeC, 100)] :=
  ⟨builders_order_independent.1 [("KA", nodeA), ("KB", nodeB)]
      [("KB", nodeB), ("KA", nodeA)] (by decide),
    builders_order_independent.2 tableRenderSynced tableRenderOutOfSync 100
      [(nodeA, 90), (nodeB, 91)] [(nodeB, 91), (nodeA, 90)] [(nodeC, 100)] [(nodeC, 100)]
      (by decide) (by decide) (by decide)⟩

/-- C9 (counterexample): the hash builder's group sections follow the
map-iteration order: two inputs holding the same set of entries but
presented in different iteration orders render different messages. -/
theorem hash_message_order_counterexample :
    ([("e1", "h1"), ("e2", "h2")] : List (String × String)).Perm
        [("e2", "h2"), ("e1", "h1")] ∧
      hashCreateMessage 5 [("e1", "h1"), ("e2", "h2")] ≠
        hashCreateMessage 5 [("e2", "h2"), ("e1", "h1")] := by
  constructor
  · decide
  · decide
